import Mathlib

/-!
# Verification of the résiliations dashboard pipeline

Shallow embedding of the data-normalization and aggregation pipeline of
`dashboard_resiliations_interactif_ok.py`: the month resolver
(`month_from_long`), the numeric month coercion (`pd.to_numeric` with
`errors="coerce"`), the month-label formatter, the product filter stage,
and the five aggregation routines (heatmap pivot, class×product table,
month comparison series, division×product table).

Cells of the spreadsheet are modelled as `Option String` (with `none` for
NaN); unit counts and aggregated values are exact rationals (the Python
side uses floats, but every aggregation here is sum/mean of finitely many
values, where rationals agree).
-/

namespace Dashboard

/-! ## Month label tables (source lines 20–21) -/

def LABELS_MOIS_FR : List String :=
  ["Jan", "Fév", "Mar", "Avr", "Mai", "Juin", "Juil", "Aoû", "Sept", "Oct", "Nov", "Déc"]

def LABELS_MOIS_ASCII : List String :=
  ["Jan", "Fev", "Mars", "Avr", "Mai", "Juin", "Juil", "Aout", "Sept", "Oct", "Nov", "Dec"]

/-! ## Character helpers

`frLower` models Python's `str.lower` restricted to the characters that can
occur in (case variants of) French month names: ASCII letters plus the
accented letters of the month tables. `frUpper` is the reverse table, used
only to enumerate case variants of the canonical abbreviations. -/

def frLower (c : Char) : Char :=
  if 'A' ≤ c ∧ c ≤ 'Z' then Char.ofNat (c.toNat + 32)
  else if c = 'É' then 'é'
  else if c = 'È' then 'è'
  else if c = 'Ê' then 'ê'
  else if c = 'À' then 'à'
  else if c = 'Û' then 'û'
  else if c = 'Ù' then 'ù'
  else if c = 'Ô' then 'ô'
  else if c = 'Î' then 'î'
  else if c = 'Ç' then 'ç'
  else c

def frUpper (c : Char) : Char :=
  if 'a' ≤ c ∧ c ≤ 'z' then Char.ofNat (c.toNat - 32)
  else if c = 'é' then 'É'
  else if c = 'è' then 'È'
  else if c = 'ê' then 'Ê'
  else if c = 'à' then 'À'
  else if c = 'û' then 'Û'
  else if c = 'ù' then 'Ù'
  else if c = 'ô' then 'Ô'
  else if c = 'î' then 'Î'
  else if c = 'ç' then 'Ç'
  else c

/-- Python's `str.strip` on a character list (leading and trailing
whitespace removed). -/
def pyStrip (cs : List Char) : List Char :=
  ((cs.dropWhile Char.isWhitespace).reverse.dropWhile Char.isWhitespace).reverse

/-- Value of a list of decimal digit characters (most significant first). -/
def natOfDigits (cs : List Char) : Nat :=
  cs.foldl (fun acc c => acc * 10 + (c.toNat - 48)) 0

/-! ## Month Resolver (source lines 23–30, `month_from_long`) -/

/-- The fixed 3-letter French month abbreviation table (source line 29). -/
def monthTable : List (String × Int) :=
  [("jan", 1), ("fév", 2), ("fev", 2), ("mar", 3), ("avr", 4), ("mai", 5),
   ("jun", 6), ("jui", 7), ("aoû", 8), ("aou", 8), ("sep", 9), ("oct", 10),
   ("nov", 11), ("déc", 12), ("dec", 12)]

/-- `month_from_long(val)` (source lines 23–30): `none` models the NaN
return; a leading run of one or two digits (the regex `^(\d{1,2})`) parses
as an integer with no range validation; otherwise the lower-cased first
three characters are looked up in `monthTable`. -/
def month_from_long (val : Option String) : Option Int :=
  match val with
  | none => none
  | some v =>
    let s := pyStrip v.data
    let ds := (s.takeWhile Char.isDigit).take 2
    if ds ≠ [] then some (natOfDigits ds : Int)
    else monthTable.lookup (String.mk ((s.map frLower).take 3))

/-! ## Numeric coercion (source line 58, `pd.to_numeric(..., errors="coerce")`)

Parses an optionally signed decimal literal (digits, optional fractional
part); anything else coerces to NaN (`none`). Exponent forms are omitted:
no claim exercises them. -/

def to_numeric (val : Option String) : Option ℚ :=
  match val with
  | none => none
  | some v =>
    let cs := pyStrip v.data
    let (sign, body) : ℚ × List Char :=
      match cs with
      | '-' :: rest => (-1, rest)
      | '+' :: rest => (1, rest)
      | _ => (1, cs)
    let intPart := body.takeWhile Char.isDigit
    match body.dropWhile Char.isDigit with
    | [] =>
      if intPart = [] then none
      else some (sign * (natOfDigits intPart : ℚ))
    | '.' :: frac =>
      if frac.all Char.isDigit ∧ (intPart ≠ [] ∨ frac ≠ []) then
        some (sign * ((natOfDigits intPart : ℚ) +
          (natOfDigits frac : ℚ) / (10 : ℚ) ^ frac.length))
      else none
    | _ => none

/-! ## Data model

A `Row` carries the raw cell values of the columns the pipeline reads
(`none` = NaN / empty cell).  A `Dataset` is the loaded table: its (already
whitespace-stripped) column names plus its rows.  The `un` unit-count
column is guaranteed by the loader (source lines 53–54: filled with 1 when
absent), so it appears here as an always-present rational. -/

structure Row where
  mois_saisie : Option String
  mois_saisie_long : Option String
  annee : Option Int
  produit : Option String
  classe : Option String
  dv : Option String
  un : ℚ
deriving DecidableEq

structure Dataset where
  cols : List String
  rows : List Row
deriving DecidableEq

/-! ## Month column derivation (source lines 57–60)

If the numeric column `"Mois saisie"` is present, `mois_num` is its
`pd.to_numeric(..., errors="coerce")` coercion; otherwise, if the free-text
column `"Mois saisie long"` is present, `month_from_long` is applied.
(When neither column exists the script crashes with a `KeyError` at line 63
before any aggregation; that run never reaches the code the claims are
about, so the final branch is left as `none`.) -/

def mois_num (d : Dataset) (r : Row) : Option ℚ :=
  if "Mois saisie" ∈ d.cols then to_numeric r.mois_saisie
  else if "Mois saisie long" ∈ d.cols then
    (month_from_long r.mois_saisie_long).map (fun n => (n : ℚ))
  else none

/-! ## Month label formatter (source line 63)

`lambda i: f"{int(i):02d} - {LABELS_MOIS_ASCII[int(i)-1]}" if pd.notna(i) else ""`.
Python `int()` truncates toward zero; Python list indexing accepts
`-len ≤ k < len` (negative indices wrap) and raises `IndexError` otherwise,
so the formatter is a fallible function. -/

/-- Python `int()` on a float/rational: truncation toward zero
(`num.tdiv den` is exactly that truncated quotient). -/
def pyInt (q : ℚ) : Int := q.num.tdiv q.den

/-- Python `"%02d"`-style formatting used in the f-string. -/
def fmt02 (n : Int) : String := if 0 ≤ n ∧ n < 10 then "0" ++ toString n else toString n

/-- Python list indexing `xs[k]`: negative indices wrap once, anything out
of `-len ≤ k < len` raises `IndexError`. -/
def pyListGet (xs : List String) (k : Int) : Except String String :=
  if 0 ≤ k ∧ k < xs.length then Except.ok (xs.getD k.toNat "")
  else if -(xs.length : Int) ≤ k ∧ k < 0 then
    Except.ok (xs.getD (k + xs.length).toNat "")
  else Except.error "IndexError"

def mois_lbl_full (i : Option ℚ) : Except String String :=
  match i with
  | none => Except.ok ""
  | some q =>
    match pyListGet LABELS_MOIS_ASCII (pyInt q - 1) with
    | Except.ok lbl => Except.ok (fmt02 (pyInt q) ++ " - " ++ lbl)
    | Except.error e => Except.error e

/-! ## Dimension extraction and filter stage (source lines 66–67, 78) -/

/-- The distinct years of the table (`df["Annee saisie"].dropna().unique()`;
sort order is irrelevant to every property stated below, so the distinct
list keeps first-occurrence order). -/
def years_of (rows : List Row) : List Int :=
  (rows.filterMap Row.annee).dedup

/-- pandas `astype(str)` on a cell: NaN renders as the string `"nan"`. -/
def astype_str (o : Option String) : String := o.getD "nan"

/-- Source line 78:
`df_filt = df[df["PRODUIT"].astype(str).isin(sel_prods)] if sel_prods else df.copy()`.
An empty selection is falsy, so it returns the full table. -/
def df_filt (rows : List Row) (sel : List String) : List Row :=
  if sel = [] then rows else rows.filter (fun r => decide (astype_str r.produit ∈ sel))

/-! ## Heatmap pivot (source line 82)

`df_filt.groupby(["mois_num","Annee saisie"])["un"].sum().unstack("Annee saisie").reindex(range(1,13))`.
`groupby` drops every row whose `mois_num` or year is NaN; `unstack` makes
one column per year that survives the groupby; `reindex` forces the row
axis to the months 1..12, leaving NaN (`none`) cells where a (month, year)
group is absent. -/

def heatKey (d : Dataset) (r : Row) : Option (ℚ × Int) :=
  match mois_num d r, r.annee with
  | some m, some y => some (m, y)
  | _, _ => none

/-- Sum of the `un` column over a list of rows. -/
def sum_un (rows : List Row) : ℚ := (rows.map Row.un).sum

/-- The pivot's column axis: the distinct years among rows that survive the
groupby (resolved month and non-null year). -/
def pivot_columns (d : Dataset) (rows : List Row) : List Int :=
  ((rows.filterMap (heatKey d)).map Prod.snd).dedup

/-- The pivot's fixed row axis `range(1,13)`. -/
def pivot_index : List ℚ := (List.range 12).map (fun j : ℕ => (j : ℚ) + 1)

/-- One cell of the pivot: `none` (NaN) when the (month, year) group is
absent, otherwise the group's summed unit count. -/
def pivot_cell (d : Dataset) (rows : List Row) (m : ℚ) (y : Int) : Option ℚ :=
  let grp := rows.filter (fun r => decide (heatKey d r = some (m, y)))
  if grp = [] then none else some (sum_un grp)

/-! ## Month comparison series (source lines 99–103)

Bar and line series:
`df_filt[df_filt["Annee saisie"]==year].groupby("mois_num")["un"].sum().reindex(range(1,13), fill_value=0)`.
Average series:
`df_filt[df_filt["Annee saisie"].isin(sel_mean_years)].groupby(["Annee saisie","mois_num"])["un"].sum().groupby("mois_num").mean().reindex(range(1,13), fill_value=0)`.
The groupby machineries are mirrored explicitly: the key list of a groupby
is the distinct list of non-NaN keys, and `reindex(..., fill_value=0)`
substitutes 0 exactly for index entries that are not keys. -/

/-- `df_filt[df_filt["Annee saisie"] == y]`. -/
def rows_year (rows : List Row) (y : Int) : List Row :=
  rows.filter (fun r => decide (r.annee = some y))

/-- `df_filt[df_filt["Annee saisie"].isin(ys)]` (NaN is in no selection). -/
def rows_years (rows : List Row) (ys : List Int) : List Row :=
  rows.filter (fun r => decide (∃ y ∈ ys, r.annee = some y))

/-- Key list of `groupby("mois_num")`: distinct resolved months. -/
def month_keys (d : Dataset) (rows : List Row) : List ℚ :=
  (rows.filterMap (mois_num d)).dedup

/-- Summed units of the `groupby("mois_num")` group at month `m`. -/
def month_sum (d : Dataset) (rows : List Row) (m : ℚ) : ℚ :=
  sum_un (rows.filter (fun r => decide (mois_num d r = some m)))

/-- One entry of a single-year series after
`reindex(range(1,13), fill_value=0)`: group sum when month `m` is a key,
the fill value 0 otherwise. -/
def serie_year_at (d : Dataset) (rows : List Row) (y : Int) (m : ℚ) : ℚ :=
  if m ∈ month_keys d (rows_year rows y) then month_sum d (rows_year rows y) m else 0

/-- The bar series (source line 99): 12 entries for months 1..12. -/
def serie_bar (d : Dataset) (rows : List Row) (y : Int) : List ℚ :=
  (List.range 12).map (fun j : ℕ => serie_year_at d rows y ((j : ℚ) + 1))

/-- The line series (source line 100): same shape as the bar series. -/
def serie_line (d : Dataset) (rows : List Row) (y : Int) : List ℚ :=
  (List.range 12).map (fun j : ℕ => serie_year_at d rows y ((j : ℚ) + 1))

/-- Key list of `groupby(["Annee saisie","mois_num"])`: the distinct
(year, resolved month) pairs present (rows with a NaN key are dropped). -/
def ym_keys (d : Dataset) (rows : List Row) : List (Int × ℚ) :=
  (rows.filterMap (fun r =>
    match r.annee, mois_num d r with
    | some y, some m => some (y, m)
    | _, _ => none)).dedup

/-- Summed units of the (year, month) group. -/
def ym_sum (d : Dataset) (rows : List Row) (y : Int) (m : ℚ) : ℚ :=
  sum_un (rows.filter (fun r => decide (r.annee = some y ∧ mois_num d r = some m)))

/-- One entry of the average series: the second `groupby("mois_num").mean()`
averages the first-stage sums over the (year, m) keys present; reindexing
fills 0 where month `m` heads no key at all. -/
def mean_at (d : Dataset) (rows : List Row) (ys : List Int) (m : ℚ) : ℚ :=
  let sel := rows_years rows ys
  let entries := ((ym_keys d sel).filter (fun p => decide (p.2 = m))).map
    (fun p => ym_sum d sel p.1 p.2)
  if entries = [] then 0 else entries.sum / entries.length

/-- The average series (source lines 101–103): 12 entries for months 1..12. -/
def serie_mean (d : Dataset) (rows : List Row) (ys : List Int) : List ℚ :=
  (List.range 12).map (fun j : ℕ => mean_at d rows ys ((j : ℚ) + 1))

/-- The years of the averaging set that actually contribute to the mean at
month `m`: those with at least one first-stage (year, m) group. Not part of
the translated pipeline — it names the denominator pandas actually uses. -/
def years_with (d : Dataset) (rows : List Row) (ys : List Int) (m : ℚ) : List Int :=
  ((ym_keys d (rows_years rows ys)).filter (fun p => decide (p.2 = m))).map Prod.fst

/-- The claim's reading of the average series (spec wording, for
comparison): the arithmetic mean over EVERY selected year of that year's
month-`m` sum, a year with no matching records contributing 0. -/
def mean_at_claim (d : Dataset) (rows : List Row) (ys : List Int) (m : ℚ) : ℚ :=
  if ys = [] then 0
  else ((ys.map (fun y => ym_sum d (rows_years rows ys) y m)).sum) / ys.length

/-- The flat mean of the per-record unit values of the matching records
(what the average series is claimed NOT to be). -/
def flat_mean (d : Dataset) (rows : List Row) (ys : List Int) (m : ℚ) : ℚ :=
  let g := (rows_years rows ys).filter (fun r => decide (mois_num d r = some m))
  if g = [] then 0 else sum_un g / g.length

/-! ## Feature-gated grouped tables (source lines 90–95 and 113–118)

`if {"CLASSE_CLIENT","PRODUIT"}.issubset(df_filt.columns): ... groupby([...])["un"].sum()`.
Filtering rows never changes the column set, so the guard reads the
Dataset's columns.  `none` models the skipped component (no table, no
chart, no error). -/

def cp_keys (rows : List Row) : List (String × String) :=
  (rows.filterMap (fun r =>
    match r.classe, r.produit with
    | some c, some p => some (c, p)
    | _, _ => none)).dedup

def cp_table (rows : List Row) : List ((String × String) × ℚ) :=
  (cp_keys rows).map (fun k =>
    (k, sum_un (rows.filter (fun r => decide (r.classe = some k.1 ∧ r.produit = some k.2)))))

/-- The Class×Product component (source lines 90–95). -/
def classe_produit_component (d : Dataset) (sel : List String) :
    Option (List ((String × String) × ℚ)) :=
  if "CLASSE_CLIENT" ∈ d.cols ∧ "PRODUIT" ∈ d.cols then
    some (cp_table (df_filt d.rows sel))
  else none

def dv_keys (rows : List Row) : List (String × String) :=
  (rows.filterMap (fun r =>
    match r.dv, r.produit with
    | some v, some p => some (v, p)
    | _, _ => none)).dedup

def dv_table (rows : List Row) : List ((String × String) × ℚ) :=
  (dv_keys rows).map (fun k =>
    (k, sum_un (rows.filter (fun r => decide (r.dv = some k.1 ∧ r.produit = some k.2)))))

/-- The Division×Product component (source lines 113–118). -/
def dv_produit_component (d : Dataset) (sel : List String) :
    Option (List ((String × String) × ℚ)) :=
  if "DV" ∈ d.cols ∧ "PRODUIT" ∈ d.cols then
    some (dv_table (df_filt d.rows sel))
  else none

/-! ## Comparison section entry (source lines 76 and 98)

`sel_mean_years = st.sidebar.multiselect(..., default=[y for y in [2005,2006] if y in YEARS])`
and, before any series is computed,
`st.subheader(f"... Moyenne démissions {min(sel_mean_years)}-{max(sel_mean_years)}")`.
Python `min`/`max` of an empty sequence raise `ValueError`, aborting the
script run. -/

/-- The default averaging-year selection. -/
def default_mean_years (YEARS : List Int) : List Int :=
  [2005, 2006].filter (fun y => decide (y ∈ YEARS))

/-- Python `min` over a list: raises on the empty sequence. -/
def pyMinList (xs : List Int) : Except String Int :=
  match xs with
  | [] => Except.error "ValueError: min() arg is an empty sequence"
  | x :: rest => Except.ok (rest.foldl min x)

/-- Python `max` over a list: raises on the empty sequence. -/
def pyMaxList (xs : List Int) : Except String Int :=
  match xs with
  | [] => Except.error "ValueError: max() arg is an empty sequence"
  | x :: rest => Except.ok (rest.foldl max x)

/-- The comparison section in source order: the subheader's `min`/`max`
(line 98) run before the three series (lines 99–103), so a raise there
yields an error with no series computed. -/
def compare_section (d : Dataset) (rows : List Row) (ybar yline : Int)
    (selMean : List Int) : Except String (Int × Int × List ℚ × List ℚ × List ℚ) :=
  match pyMinList selMean with
  | Except.error e => Except.error e
  | Except.ok lo =>
    match pyMaxList selMean with
    | Except.error e => Except.error e
    | Except.ok hi =>
      Except.ok (lo, hi, serie_bar d rows ybar, serie_line d rows yline,
        serie_mean d rows selMean)

/-! ## Case variants

`stringVariants s` enumerates every string obtained from `s` by choosing,
independently for each character, its lower-case or upper-case form — the
formalization of "arbitrary case" for the canonical month abbreviations. -/

def charVariants (c : Char) : List Char := [frLower c, frUpper c].dedup

def stringVariants (s : String) : List String :=
  (s.data.foldr (fun c acc => (charVariants c).flatMap (fun v => acc.map (fun t => v :: t)))
    [[]]).map String.mk

/-! ## Concrete datasets

Small spreadsheets used to evaluate the pipeline at specific inputs.
`Row` fields in order: `mois_saisie`, `mois_saisie_long`, `annee`,
`produit`, `classe`, `dv`, `un`. -/

/-- A record whose raw month value `"13"` resolves (no range validation)
to the out-of-range month 13. -/
def rowC3 : Row := ⟨none, some "13", some 2020, none, none, none, 1⟩

def dC3 : Dataset := ⟨["Mois saisie long", "Annee saisie"], [rowC3]⟩

/-- One month-1 record in 2019 and none in 2020. -/
def rowC1 : Row := ⟨none, some "1", some 2019, none, none, none, 4⟩

def dC1 : Dataset := ⟨["Mois saisie long", "Annee saisie"], [rowC1]⟩

/-- Year 2019 has two month-1 records (units 1 and 3, sum 4), year 2020 a
single month-1 record of 6 units: yearly-sum mean 5, flat record mean 10/3. -/
def rowF1 : Row := ⟨none, some "1", some 2019, none, none, none, 1⟩

def rowF2 : Row := ⟨none, some "1", some 2019, none, none, none, 3⟩

def rowF3 : Row := ⟨none, some "1", some 2020, none, none, none, 6⟩

def dFlat : Dataset := ⟨["Mois saisie long", "Annee saisie"], [rowF1, rowF2, rowF3]⟩

/-- Two products in the same (month, year) cell. -/
def rowA : Row := ⟨none, some "1", some 2020, some "A", none, none, 5⟩

def rowB : Row := ⟨none, some "1", some 2020, some "B", none, none, 3⟩

def dC2 : Dataset := ⟨["Mois saisie long", "Annee saisie", "PRODUIT"], [rowA, rowB]⟩

/-- A record of year 2025 whose month does not resolve. -/
def rowC7 : Row := ⟨none, some "abc", some 2025, none, none, none, 1⟩

def dC7 : Dataset := ⟨["Mois saisie long", "Annee saisie"], [rowC7]⟩

def dC8yes : Dataset := ⟨["CLASSE_CLIENT", "PRODUIT", "DV"], []⟩

def dC8no : Dataset := ⟨["PRODUIT"], []⟩

/-- A dataset whose only year is 2020 (neither 2005 nor 2006 occurs). -/
def rowC9 : Row := ⟨some "1", none, some 2020, none, none, none, 1⟩

/-- A record with the French month name `"Janvier"` in the numeric column. -/
def rowC10 : Row := ⟨some "Janvier", none, some 2020, none, none, none, 1⟩

def dC10 : Dataset := ⟨["Mois saisie", "Annee saisie"], [rowC10]⟩

instance : DecidableEq (Except String String) :=
  fun a b =>
    match a, b with
    | Except.error x, Except.error y =>
      if h : x = y then isTrue (congrArg Except.error h)
      else isFalse (fun hh => h (Except.error.inj hh))
    | Except.ok x, Except.ok y =>
      if h : x = y then isTrue (congrArg Except.ok h)
      else isFalse (fun hh => h (Except.ok.inj hh))
    | Except.error _, Except.ok _ => isFalse (fun hh => Except.noConfusion hh)
    | Except.ok _, Except.error _ => isFalse (fun hh => Except.noConfusion hh)

/-! ## Helper lemmas -/

theorem ymKey_some (d : Dataset) (r : Row) (y : Int) (m : ℚ) :
    (match r.annee, mois_num d r with
      | some y', some m' => some (y', m')
      | _, _ => (none : Option (Int × ℚ))) = some (y, m) ↔
      r.annee = some y ∧ mois_num d r = some m := by
  cases h1 : r.annee <;> cases h2 : mois_num d r <;> simp

theorem heatKey_some (d : Dataset) (r : Row) (y : Int) (m : ℚ) :
    heatKey d r = some (m, y) ↔ mois_num d r = some m ∧ r.annee = some y := by
  unfold heatKey
  cases h1 : mois_num d r <;> cases h2 : r.annee <;> simp

theorem mem_month_keys (d : Dataset) (rows : List Row) (m : ℚ) :
    m ∈ month_keys d rows ↔ ∃ r ∈ rows, mois_num d r = some m := by
  simp [month_keys, List.mem_dedup, List.mem_filterMap]

theorem mem_ym_keys (d : Dataset) (rows : List Row) (y : Int) (m : ℚ) :
    (y, m) ∈ ym_keys d rows ↔ ∃ r ∈ rows, r.annee = some y ∧ mois_num d r = some m := by
  unfold ym_keys
  rw [List.mem_dedup, List.mem_filterMap]
  constructor
  · rintro ⟨r, hr, hkey⟩
    exact ⟨r, hr, (ymKey_some d r y m).mp hkey⟩
  · rintro ⟨r, hr, h⟩
    exact ⟨r, hr, (ymKey_some d r y m).mpr h⟩

theorem mem_rows_year (rows : List Row) (y : Int) (r : Row) :
    r ∈ rows_year rows y ↔ r ∈ rows ∧ r.annee = some y := by
  simp [rows_year]

theorem mem_rows_years (rows : List Row) (ys : List Int) (r : Row) :
    r ∈ rows_years rows ys ↔ r ∈ rows ∧ ∃ y ∈ ys, r.annee = some y := by
  simp [rows_years]

theorem getD_range_map (f : ℕ → ℚ) (j : Fin 12) :
    (((List.range 12).map f).getD j.val 1) = f j.val := by
  have hj : j.val < 12 := j.isLt
  simp [List.getD, List.getElem?_map, List.getElem?_range hj]

/-! ## Evaluation lemmas for concrete cells -/

theorem to_numeric_digit_one : to_numeric (some "1") = some 1 := by
  have h1 : pyStrip "1".data = ['1'] := by decide
  have h2 : natOfDigits ['1'] = 1 := by decide
  simp +decide [to_numeric, h1, h2]

theorem mois_num_rowC1 : mois_num dC1 rowC1 = some 1 := by decide

theorem mois_num_rowF1 : mois_num dFlat rowF1 = some 1 := by decide

theorem mois_num_rowF2 : mois_num dFlat rowF2 = some 1 := by decide

theorem mois_num_rowF3 : mois_num dFlat rowF3 = some 1 := by decide

theorem mois_num_rowA : mois_num dC2 rowA = some 1 := by decide

theorem mois_num_rowB : mois_num dC2 rowB = some 1 := by decide

/-! ## Claim theorems -/

/-- C4: the Filter Stage with an empty product selection returns the full
Dataset unchanged — empty selection means "no filter", so the result has
the same number of records as the unfiltered Dataset. -/
theorem C4_empty_selection_full (rows : List Row) :
    df_filt rows [] = rows ∧ (df_filt rows []).length = rows.length := by
  constructor <;> simp [df_filt]

/-- C3: a record whose raw month value `"13"` resolves, with no range
validation, to the out-of-range month 13, and the month-label formatting
step then raises `IndexError` — the pipeline crashes on such a record
instead of silently excluding it. -/
theorem C3_out_of_range_month_crashes :
    month_from_long (some "13") = some 13 ∧
    mois_num dC3 rowC3 = some 13 ∧
    mois_lbl_full (mois_num dC3 rowC3) = Except.error "IndexError" := by
  have h1 : month_from_long (some "13") = some 13 := by decide
  have h2 : mois_num dC3 rowC3 = some 13 := by
    simp +decide [mois_num, dC3, rowC3, h1]
  refine ⟨h1, h2, ?_⟩
  rw [h2]
  decide

/-- C9: when neither 2005 nor 2006 occurs among the Dataset's years, the
default averaging selection is empty and building the comparison chart's
title raises `ValueError` (min of an empty sequence) before any comparison
series is computed. -/
theorem C9_empty_default_mean_years_crashes (rows : List Row)
    (h5 : (2005 : ℤ) ∉ years_of rows) (h6 : (2006 : ℤ) ∉ years_of rows) :
    default_mean_years (years_of rows) = [] ∧
    ∀ (d : Dataset) (ybar yline : Int),
      compare_section d rows ybar yline (default_mean_years (years_of rows)) =
        Except.error "ValueError: min() arg is an empty sequence" := by
  have hd : default_mean_years (years_of rows) = [] := by
    simp [default_mean_years, h5, h6]
  exact ⟨hd, fun d ybar yline => by rw [hd]; rfl⟩

theorem C9_empty_default_mean_years_crashes_witness :
    default_mean_years (years_of [rowC9]) = [] ∧
    ∀ (d : Dataset) (ybar yline : Int),
      compare_section d [rowC9] ybar yline (default_mean_years (years_of [rowC9])) =
        Except.error "ValueError: min() arg is an empty sequence" :=
  C9_empty_default_mean_years_crashes [rowC9] (by decide) (by decide)

/-- C10: when the numeric column `"Mois saisie"` is present, months are
resolved by numeric coercion only, and the Month Resolver is consulted
only when it is absent and `"Mois saisie long"` is present; a free-text
French month name in the numeric column coerces to NaN even though the
resolver would map it. -/
theorem C10_numeric_column_priority (d : Dataset) (r : Row) :
    ("Mois saisie" ∈ d.cols → mois_num d r = to_numeric r.mois_saisie) ∧
    ("Mois saisie" ∉ d.cols → "Mois saisie long" ∈ d.cols →
      mois_num d r = (month_from_long r.mois_saisie_long).map (fun n => (n : ℚ))) ∧
    to_numeric (some "Janvier") = none ∧
    month_from_long (some "Janvier") = some 1 := by
  refine ⟨fun h => by simp [mois_num, h], fun h1 h2 => by simp [mois_num, h1, h2],
    by decide, by decide⟩

theorem C10_numeric_column_priority_witness :
    mois_num dC10 rowC10 = to_numeric rowC10.mois_saisie ∧
    mois_num dC3 rowC3 = (month_from_long rowC3.mois_saisie_long).map (fun n => (n : ℚ)) :=
  ⟨(C10_numeric_column_priority dC10 rowC10).1 (by decide),
   (C10_numeric_column_priority dC3 rowC3).2.1 (by decide) (by decide)⟩

/-- C8: the Class×Product component is skipped (no table, no error) when
the customer-class column is absent, the Division×Product component when
the sales-division column is absent, and each runs (producing its grouped
summary table of the filtered view) when both of its required columns are
present. -/
theorem C8_column_feature_gate (d : Dataset) (sel : List String) :
    ("CLASSE_CLIENT" ∉ d.cols → classe_produit_component d sel = none) ∧
    ("DV" ∉ d.cols → dv_produit_component d sel = none) ∧
    ("CLASSE_CLIENT" ∈ d.cols → "PRODUIT" ∈ d.cols →
      classe_produit_component d sel = some (cp_table (df_filt d.rows sel))) ∧
    ("DV" ∈ d.cols → "PRODUIT" ∈ d.cols →
      dv_produit_component d sel = some (dv_table (df_filt d.rows sel))) := by
  refine ⟨fun h => ?_, fun h => ?_, fun h1 h2 => ?_, fun h1 h2 => ?_⟩
  · simp [classe_produit_component, h]
  · simp [dv_produit_component, h]
  · simp [classe_produit_component, h1, h2]
  · simp [dv_produit_component, h1, h2]

theorem C8_column_feature_gate_witness :
    classe_produit_component dC8no [] = none ∧
    dv_produit_component dC8no [] = none ∧
    classe_produit_component dC8yes [] = some (cp_table (df_filt dC8yes.rows [])) ∧
    dv_produit_component dC8yes [] = some (dv_table (df_filt dC8yes.rows [])) :=
  ⟨(C8_column_feature_gate dC8no []).1 (by decide),
   (C8_column_feature_gate dC8no []).2.1 (by decide),
   (C8_column_feature_gate dC8yes []).2.2.1 (by decide) (by decide),
   (C8_column_feature_gate dC8yes []).2.2.2 (by decide) (by decide)⟩

/-- C5: every canonical French month abbreviation, accented
(`LABELS_MOIS_FR`) or unaccented (`LABELS_MOIS_ASCII`), in every
combination of per-character upper/lower case, resolves to its correct
month number — except index 5, "Juin", the known juin/juillet ambiguity. -/
theorem C5_canonical_abbreviations :
    ∀ j : Fin 12, j.val ≠ 5 →
      (∀ s ∈ stringVariants (LABELS_MOIS_FR.getD j.val ""),
        month_from_long (some s) = some ((j.val : ℤ) + 1)) ∧
      (∀ s ∈ stringVariants (LABELS_MOIS_ASCII.getD j.val ""),
        month_from_long (some s) = some ((j.val : ℤ) + 1)) := by decide

theorem C5_canonical_abbreviations_witness :
    month_from_long (some "JAN") = some 1 :=
  (C5_canonical_abbreviations 0 (by decide)).1 "JAN" (by decide)

theorem serie_year_at_zero (d : Dataset) (rows : List Row) (y : Int) (m : ℚ)
    (h : ∀ r ∈ rows, ¬(r.annee = some y ∧ mois_num d r = some m)) :
    serie_year_at d rows y m = 0 := by
  unfold serie_year_at
  rw [if_neg]
  intro hmem
  rcases (mem_month_keys d (rows_year rows y) m).mp hmem with ⟨r, hr, hm⟩
  rcases (mem_rows_year rows y r).mp hr with ⟨hrr, ha⟩
  exact h r hrr ⟨ha, hm⟩

theorem mean_at_zero (d : Dataset) (rows : List Row) (ys : List Int) (m : ℚ)
    (h : ∀ r ∈ rows, ¬((∃ y ∈ ys, r.annee = some y) ∧ mois_num d r = some m)) :
    mean_at d rows ys m = 0 := by
  unfold mean_at
  have hent : ((ym_keys d (rows_years rows ys)).filter (fun p => decide (p.2 = m))) = [] := by
    rw [List.filter_eq_nil_iff]
    intro p hp hdec
    have hpm : p.2 = m := by simpa using hdec
    have hpk : (p.1, m) ∈ ym_keys d (rows_years rows ys) := by
      rw [← hpm]; exact hp
    rcases (mem_ym_keys d (rows_years rows ys) p.1 m).mp hpk with ⟨r, hr, ha, hm2⟩
    rcases (mem_rows_years rows ys r).mp hr with ⟨hrr, hys2⟩
    exact h r hrr ⟨hys2, hm2⟩
  simp [hent]

/-- C6: for every filtered Dataset and every choice of bar year, line year
and non-empty averaging set, each comparison series has exactly 12 entries
(months 1..12 in order), and a month with no matching records carries the
fill value 0 in each of the three series. -/
theorem C6_comparison_series_shape (d : Dataset) (rows : List Row) (ybar yline : Int)
    (ys : List Int) (hys : ys ≠ []) :
    (serie_bar d rows ybar).length = 12 ∧
    (serie_line d rows yline).length = 12 ∧
    (serie_mean d rows ys).length = 12 ∧
    ∀ j : Fin 12,
      ((∀ r ∈ rows, ¬(r.annee = some ybar ∧ mois_num d r = some ((j.val : ℚ) + 1))) →
        (serie_bar d rows ybar).getD j.val 1 = 0) ∧
      ((∀ r ∈ rows, ¬(r.annee = some yline ∧ mois_num d r = some ((j.val : ℚ) + 1))) →
        (serie_line d rows yline).getD j.val 1 = 0) ∧
      ((∀ r ∈ rows, ¬((∃ y ∈ ys, r.annee = some y) ∧ mois_num d r = some ((j.val : ℚ) + 1))) →
        (serie_mean d rows ys).getD j.val 1 = 0) := by
  refine ⟨by simp [serie_bar], by simp [serie_line], by simp [serie_mean], fun j => ?_⟩
  refine ⟨fun h => ?_, fun h => ?_, fun h => ?_⟩
  · rw [serie_bar, getD_range_map (fun n => serie_year_at d rows ybar ((n : ℚ) + 1)) j]
    exact serie_year_at_zero d rows ybar _ h
  · rw [serie_line, getD_range_map (fun n => serie_year_at d rows yline ((n : ℚ) + 1)) j]
    exact serie_year_at_zero d rows yline _ h
  · rw [serie_mean, getD_range_map (fun n => mean_at d rows ys ((n : ℚ) + 1)) j]
    exact mean_at_zero d rows ys _ h

theorem C6_comparison_series_shape_witness :
    (serie_bar dC1 [] 2019).length = 12 ∧ (serie_bar dC1 [] 2019).getD 0 1 = 0 := by
  have h := C6_comparison_series_shape dC1 [] 2019 2020 [2019] (by decide)
  exact ⟨h.1, (h.2.2.2 ⟨0, by decide⟩).1 (by simp)⟩

/-- C2 counterexample: with the non-empty product selection `["A"]`, the
heatmap cell (month 1, year 2020) differs from the unfiltered one (5 versus
8): the heatmap does NOT consume the unfiltered Dataset. -/
theorem C2_counterexample :
    pivot_cell dC2 (df_filt dC2.rows ["A"]) 1 2020 ≠
      pivot_cell dC2 (df_filt dC2.rows []) 1 2020 := by
  have hfA : df_filt dC2.rows ["A"] = [rowA] := by decide
  have hf0 : df_filt dC2.rows [] = [rowA, rowB] := by decide
  have hgA : [rowA].filter (fun r => decide (heatKey dC2 r = some (1, 2020))) = [rowA] := by
    decide
  have hg0 : [rowA, rowB].filter (fun r => decide (heatKey dC2 r = some (1, 2020))) =
      [rowA, rowB] := by decide
  have hcA : pivot_cell dC2 [rowA] 1 2020 = some 5 := by
    rw [pivot_cell]
    simp only [hgA]
    simp [sum_un, show rowA.un = 5 from rfl]
  have hc0 : pivot_cell dC2 [rowA, rowB] 1 2020 = some 8 := by
    rw [pivot_cell]
    simp only [hg0]
    simp [sum_un, show rowA.un = 5 from rfl, show rowB.un = 3 from rfl]
    norm_num
  rw [hfA, hf0, hcA, hc0]
  simp

/-- C2 amended: the heatmap consumes the product-filtered view.  With a
non-empty selection the filter stage keeps exactly the records whose
product is selected, and a record whose product is outside the selection
contributes nothing to any heatmap cell. -/
theorem C2_heatmap_uses_filtered_view (d : Dataset) (rows : List Row) (sel : List String)
    (r : Row) (m : ℚ) (y : Int) (hsel : sel ≠ []) (hr : astype_str r.produit ∉ sel) :
    df_filt rows sel = rows.filter (fun row => decide (astype_str row.produit ∈ sel)) ∧
    pivot_cell d (df_filt (r :: rows) sel) m y = pivot_cell d (df_filt rows sel) m y := by
  have h1 : ∀ rs : List Row,
      df_filt rs sel = rs.filter (fun row => decide (astype_str row.produit ∈ sel)) :=
    fun rs => by simp [df_filt, hsel]
  refine ⟨h1 rows, ?_⟩
  rw [h1 (r :: rows), h1 rows]
  simp [hr]

theorem C2_heatmap_uses_filtered_view_witness :
    df_filt [rowA] ["A"] = [rowA].filter (fun row => decide (astype_str row.produit ∈ ["A"])) ∧
    pivot_cell dC2 (df_filt (rowB :: [rowA]) ["A"]) 1 2020 =
      pivot_cell dC2 (df_filt [rowA] ["A"]) 1 2020 :=
  C2_heatmap_uses_filtered_view dC2 [rowA] ["A"] rowB 1 2020 (by decide) (by decide)

/-- C7 counterexample: a filtered table whose only record has year 2025 but
an unresolvable month has 2025 among its years, yet the pivot's column set
is empty — the columns are not the years present in the data being
aggregated. -/
theorem C7_counterexample :
    pivot_columns dC7 (df_filt dC7.rows []) ≠ years_of (df_filt dC7.rows []) := by
  decide

/-- C7 amended: the heatmap's columns are exactly the years carried by
records whose month resolves (a year occurring only on unresolved-month
records is dropped), and its row axis is the fixed months 1..12 in order,
months without data included. -/
theorem C7_heatmap_axes (d : Dataset) (rows : List Row) :
    (∀ y : Int, y ∈ pivot_columns d rows ↔
      ∃ r ∈ rows, (mois_num d r).isSome ∧ r.annee = some y) ∧
    pivot_index.length = 12 ∧
    ∀ j : Fin 12, pivot_index.getD j.val 1 = (j.val : ℚ) + 1 := by
  refine ⟨fun y => ?_, by simp [pivot_index], fun j => ?_⟩
  · rw [pivot_columns]
    simp only [List.mem_dedup, List.mem_map, List.mem_filterMap]
    constructor
    · rintro ⟨⟨m, y'⟩, ⟨r, hr, hkey⟩, hsnd⟩
      cases hsnd
      rcases (heatKey_some d r y' m).mp hkey with ⟨hm, ha⟩
      exact ⟨r, hr, by simp [hm], ha⟩
    · rintro ⟨r, hr, hsome, ha⟩
      rcases Option.isSome_iff_exists.mp hsome with ⟨m, hm⟩
      exact ⟨(m, y), ⟨r, hr, (heatKey_some d r y m).mpr ⟨hm, ha⟩⟩, rfl⟩
  · exact getD_range_map (fun n => (n : ℚ) + 1) j

theorem mem_years_with (d : Dataset) (rows : List Row) (ys : List Int) (m : ℚ) (y : Int) :
    y ∈ years_with d rows ys m ↔
      y ∈ ys ∧ ∃ r ∈ rows, r.annee = some y ∧ mois_num d r = some m := by
  unfold years_with
  constructor
  · intro hy
    rcases List.mem_map.mp hy with ⟨p, hp, hfst⟩
    have hpm : p.2 = m := by simpa using (List.mem_filter.mp hp).2
    have hpk : (y, m) ∈ ym_keys d (rows_years rows ys) := by
      rw [← hfst, ← hpm]
      exact (List.mem_filter.mp hp).1
    rcases (mem_ym_keys d (rows_years rows ys) y m).mp hpk with ⟨r, hr, ha, hm⟩
    rcases (mem_rows_years rows ys r).mp hr with ⟨hrr, y', hy', ha'⟩
    have hyy : y' = y := by
      rw [ha] at ha'
      exact (Option.some.inj ha').symm
    subst hyy
    exact ⟨hy', r, hrr, ha, hm⟩
  · rintro ⟨hyys, r, hr, ha, hm⟩
    have hmem : (y, m) ∈ ym_keys d (rows_years rows ys) :=
      (mem_ym_keys d (rows_years rows ys) y m).mpr
        ⟨r, (mem_rows_years rows ys r).mpr ⟨hr, y, hyys, ha⟩, ha, hm⟩
    exact List.mem_map.mpr ⟨(y, m), List.mem_filter.mpr ⟨hmem, by simp⟩, rfl⟩

/-- The average series' entry at month `m` is the mean of the per-year
month-`m` sums over exactly the contributing years `years_with`. -/
theorem mean_at_eq (d : Dataset) (rows : List Row) (ys : List Int) (m : ℚ) :
    mean_at d rows ys m =
      if years_with d rows ys m = [] then 0
      else ((years_with d rows ys m).map (fun y => ym_sum d (rows_years rows ys) y m)).sum /
        (years_with d rows ys m).length := by
  simp only [mean_at, years_with]
  set l := (ym_keys d (rows_years rows ys)).filter (fun p => decide (p.2 = m)) with hl
  have hmem : ∀ p ∈ l, p.2 = m := fun p hp => by
    simpa using (List.mem_filter.mp hp).2
  have hmap : l.map (fun p => ym_sum d (rows_years rows ys) p.1 p.2) =
      (l.map Prod.fst).map (fun y => ym_sum d (rows_years rows ys) y m) := by
    rw [List.map_map]
    exact List.map_congr_left fun p hp => by simp [Function.comp, hmem p hp]
  rw [hmap]
  by_cases h0 : l = []
  · simp [h0]
  · have h1 : l.map Prod.fst ≠ [] := by simpa [List.map_eq_nil_iff] using h0
    have h2 : (l.map Prod.fst).map (fun y => ym_sum d (rows_years rows ys) y m) ≠ [] := by
      simpa [List.map_eq_nil_iff] using h1
    rw [if_neg h2, if_neg h1, List.length_map]

/-! Evaluation of the average series on `dFlat` (years 2019/2020, all
records in month 1: yearly sums 4 and 6, flat record mean 10/3) and on
`dC1` (a single 2019 record, 2020 selected but absent). -/

theorem ym_sum_dFlat_2019 : ym_sum dFlat dFlat.rows 2019 1 = 4 := by
  have hf : dFlat.rows.filter
      (fun r => decide (r.annee = some 2019 ∧ mois_num dFlat r = some 1)) = [rowF1, rowF2] := by
    decide
  rw [ym_sum, hf]
  simp [sum_un, show rowF1.un = 1 from rfl, show rowF2.un = 3 from rfl]
  norm_num

theorem ym_sum_dFlat_2020 : ym_sum dFlat dFlat.rows 2020 1 = 6 := by
  have hf : dFlat.rows.filter
      (fun r => decide (r.annee = some 2020 ∧ mois_num dFlat r = some 1)) = [rowF3] := by
    decide
  rw [ym_sum, hf]
  simp [sum_un, show rowF3.un = 6 from rfl]

theorem mean_at_dFlat : mean_at dFlat dFlat.rows [2019, 2020] 1 = 5 := by
  have hsel : rows_years dFlat.rows [2019, 2020] = dFlat.rows := by decide
  have hk : (ym_keys dFlat dFlat.rows).filter (fun p => decide (p.2 = 1)) =
      [(2019, 1), (2020, 1)] := by decide
  simp only [mean_at, hsel, hk, List.map_cons, List.map_nil]
  rw [ym_sum_dFlat_2019, ym_sum_dFlat_2020, if_neg (show ¬([(4 : ℚ), 6] = []) by simp)]
  norm_num

theorem flat_mean_dFlat : flat_mean dFlat dFlat.rows [2019, 2020] 1 = 10 / 3 := by
  have hsel : rows_years dFlat.rows [2019, 2020] = dFlat.rows := by decide
  have hf : dFlat.rows.filter (fun r => decide (mois_num dFlat r = some 1)) =
      [rowF1, rowF2, rowF3] := by decide
  simp only [flat_mean, hsel, hf]
  simp [sum_un, show rowF1.un = 1 from rfl, show rowF2.un = 3 from rfl,
    show rowF3.un = 6 from rfl]
  norm_num

theorem mean_at_dC1 : mean_at dC1 dC1.rows [2019, 2020] 1 = 4 := by
  have hsel : rows_years dC1.rows [2019, 2020] = dC1.rows := by decide
  have hk : (ym_keys dC1 dC1.rows).filter (fun p => decide (p.2 = 1)) = [(2019, 1)] := by
    decide
  have hs : ym_sum dC1 dC1.rows 2019 1 = 4 := by
    have hf : dC1.rows.filter
        (fun r => decide (r.annee = some 2019 ∧ mois_num dC1 r = some 1)) = [rowC1] := by
      decide
    rw [ym_sum, hf]
    simp [sum_un, show rowC1.un = 4 from rfl]
  simp only [mean_at, hsel, hk, List.map_cons, List.map_nil]
  rw [hs, if_neg (show ¬([(4 : ℚ)] = []) by simp)]
  norm_num

theorem mean_at_claim_dC1 : mean_at_claim dC1 dC1.rows [2019, 2020] 1 = 2 := by
  have hsel : rows_years dC1.rows [2019, 2020] = dC1.rows := by decide
  have hs19 : ym_sum dC1 dC1.rows 2019 1 = 4 := by
    have hf : dC1.rows.filter
        (fun r => decide (r.annee = some 2019 ∧ mois_num dC1 r = some 1)) = [rowC1] := by
      decide
    rw [ym_sum, hf]
    simp [sum_un, show rowC1.un = 4 from rfl]
  have hs20 : ym_sum dC1 dC1.rows 2020 1 = 0 := by
    have hf : dC1.rows.filter
        (fun r => decide (r.annee = some 2020 ∧ mois_num dC1 r = some 1)) = [] := by
      decide
    rw [ym_sum, hf]
    simp [sum_un]
  simp [mean_at_claim, hsel, hs19, hs20]
  norm_num

/-- C1 counterexample: on `dC1` (averaging years {2019, 2020}, one month-1
record of 4 units in 2019 and none in 2020) the code's average series gives
4 at month 1 — pandas averages only over years with matching records — and
not 2, the mean over every selected year with absent years counted as 0. -/
theorem C1_counterexample :
    mean_at dC1 dC1.rows [2019, 2020] 1 ≠ mean_at_claim dC1 dC1.rows [2019, 2020] 1 := by
  rw [mean_at_dC1, mean_at_claim_dC1]
  norm_num

/-- C1 amended: the average series at month `m` is the arithmetic mean of
the per-year month-`m` sums over exactly those selected years having at
least one matching record (0 when no selected year has any); it is not in
general the flat mean of per-record unit values (on `dFlat` the series
yields 5 while the flat record mean is 10/3). -/
theorem C1_average_series (d : Dataset) (rows : List Row) (ys : List Int) (m : ℚ) :
    (mean_at d rows ys m =
      if years_with d rows ys m = [] then 0
      else ((years_with d rows ys m).map (fun y => ym_sum d (rows_years rows ys) y m)).sum /
        (years_with d rows ys m).length) ∧
    (∀ y : Int, y ∈ years_with d rows ys m ↔
      y ∈ ys ∧ ∃ r ∈ rows, r.annee = some y ∧ mois_num d r = some m) ∧
    (∀ j : Fin 12, (serie_mean d rows ys).getD j.val 1 = mean_at d rows ys ((j.val : ℚ) + 1)) ∧
    mean_at dFlat dFlat.rows [2019, 2020] 1 = 5 ∧
    flat_mean dFlat dFlat.rows [2019, 2020] 1 = 10 / 3 :=
  ⟨mean_at_eq d rows ys m, mem_years_with d rows ys m,
   fun j => by rw [serie_mean]; exact getD_range_map _ j,
   mean_at_dFlat, flat_mean_dFlat⟩

end Dashboard
